import Mathlib

/-! Verification of the r3current physics and animation core.

The JavaScript sources are embedded shallowly: JS numbers become real
numbers in the physics module and rationals in the animation state
machine (whose relevant arithmetic is exact), JS objects become
structures, and in-place mutation becomes explicit state passing.
The file `src/physics/index.js` contains two concatenated variants of
the physics module; the first (kinematic) variant is embedded at top
level and the second (impulse-based) variant's body factory lives in
namespace `Impulse`.  Lean's total division (`x / 0 = 0`) replaces IEEE
division; properties that hinge on NaN propagation are out of scope. -/

/-- Shape tag for rectangles. -/
def rectTag : String := "rect"

/-- Shape tag for circles. -/
def circleTag : String := "circle"

/-- Shape tag for triangles. -/
def triangleTag : String := "triangle"

/-- JS `a || b` for an optional number: `undefined`, `0` (and NaN, absent
from the real-number embedding) are falsy and select the default. -/
noncomputable def jsOrNum (v : Option ℝ) (d : ℝ) : ℝ :=
  match v with
  | none => d
  | some r => if r = 0 then d else r

/-- JS `a || b` for an optional string: `undefined` and `""` are falsy. -/
def jsOrStr (v : Option String) (d : String) : String :=
  match v with
  | none => d
  | some s => if s = "" then d else s

/-- JS `a || b` for an optional array: every array object is truthy. -/
def jsOrColor (v : Option (List ℝ)) (d : List ℝ) : List ℝ :=
  v.getD d

/-- JS `Number.isFinite(z) ? Math.round(z) : 0`: `undefined` is not finite,
every real number is.  `Math.round` rounds half toward plus infinity,
which is Mathlib's `round`. -/
noncomputable def jsRoundZ (v : Option ℝ) : ℤ :=
  match v with
  | none => 0
  | some z => round z

/-- A 2D vector / point, the `{x, y}` objects of the source. -/
structure Vec2 where
  x : ℝ
  y : ℝ

/-- A physics body of the kinematic variant (`src/physics/index.js`,
first half).  The `id` string carries no physics and the nondeterministic
fresh id (`Date.now()`/`Math.random()`) is modelled by a placeholder. -/
structure Body where
  id : String
  x : ℝ
  y : ℝ
  w : ℝ
  h : ℝ
  vx : ℝ
  vy : ℝ
  rotation : ℝ
  isStatic : Bool
  onGround : Bool
  shape : String
  color : List ℝ
  z : ℤ

/-- The physics world: bounds plus the body and brick lists. -/
structure World where
  width : ℝ
  height : ℝ
  bodies : List Body
  bricks : List Body

/-- `createWorld(width, height)`. -/
def createWorld (width height : ℝ) : World :=
  { width := width, height := height, bodies := [], bricks := [] }

/-- The options object accepted by the kinematic `brick` factory. -/
structure Opts where
  id : Option String
  rotation : Option ℝ
  shape : Option String
  color : Option (List ℝ)
  z : Option ℝ

/-- `brick(world, x, y, w, h, opts)`: builds a static body and pushes it
onto both `world.bodies` and `world.bricks`; returns the updated world
and the body. -/
noncomputable def brick (world : World) (x y w h : ℝ) (opts : Opts) : World × Body :=
  let body : Body :=
    { id := jsOrStr opts.id "brick_gen"
      x := x, y := y, w := w, h := h
      vx := 0, vy := 0
      rotation := jsOrNum opts.rotation 0
      isStatic := true
      onGround := false
      shape := jsOrStr opts.shape rectTag
      color := jsOrColor opts.color [0.8, 0.4, 0.2, 1.0]
      z := jsRoundZ opts.z }
  ({ world with bodies := world.bodies ++ [body], bricks := world.bricks ++ [body] }, body)

/-- The flat record emitted by `serializeBricks` for one brick (the
persisted level format).  `z` is written as a JS number. -/
structure BrickRecord where
  x : ℝ
  y : ℝ
  w : ℝ
  h : ℝ
  shape : String
  color : List ℝ
  rotation : ℝ
  z : ℝ

/-- `serializeBricks(world)`: maps each brick to its flat record.  In the
embedding `b.z` is always a number, so `typeof b.z === 'number' ? b.z : 0`
is `b.z`. -/
def serializeBricks (world : World) : List BrickRecord :=
  world.bricks.map fun b =>
    { x := b.x, y := b.y, w := b.w, h := b.h
      shape := b.shape, color := b.color
      rotation := b.rotation, z := (b.z : ℝ) }

/-- `loadBricks(world, data)`: rebuilds each record through the `brick`
factory.  The JS numeric-field guards (`typeof item.x === 'number'` and
`Array.isArray`) always hold for typed records and are omitted. -/
noncomputable def loadBricks (world : World) (data : List BrickRecord) : World :=
  data.foldl
    (fun w item =>
      (brick w item.x item.y item.w item.h
        ⟨none, some item.rotation, some item.shape, some item.color, some item.z⟩).1)
    world

/-- The corner transform nested in `getVertices`: rotate a normalized
corner about (0.5, 0.5), then scale by (w, h) and translate by (x, y). -/
noncomputable def transformCorner (body : Body) (cornerX cornerY : ℝ) : Vec2 :=
  let c := Real.cos body.rotation
  let s := Real.sin body.rotation
  let offsetX := cornerX - 0.5
  let offsetY := cornerY - 0.5
  let rotatedX := offsetX * c - offsetY * s
  let rotatedY := offsetX * s + offsetY * c
  ⟨body.x + (rotatedX + 0.5) * body.w, body.y + (rotatedY + 0.5) * body.h⟩

/-- `getVertices(body)`: world-space vertices for rect and triangle;
any other shape tag yields no vertices. -/
noncomputable def getVertices (body : Body) : List Vec2 :=
  if body.shape = rectTag then
    [transformCorner body 0 0, transformCorner body 1 0,
     transformCorner body 1 1, transformCorner body 0 1]
  else if body.shape = triangleTag then
    [transformCorner body 0.5 0, transformCorner body 1 1, transformCorner body 0 1]
  else []

/-- The result object of the collision detectors.  The JS non-colliding
result `{colliding: false}` carries no other fields; the embedding fills
them with zeros. -/
structure CollisionResult where
  colliding : Bool
  overlap : ℝ
  normal : Vec2

/-- `detectCircleCircle(a, b)` with the effective radius abstracted, to
state which radius expression the code uses (claim C2). -/
noncomputable def detectCircleCircleWithRadius (radius : Body → ℝ) (a b : Body) :
    CollisionResult :=
  let ax := a.x + a.w / 2
  let ay := a.y + a.h / 2
  let bx := b.x + b.w / 2
  let by' := b.y + b.h / 2
  let ra := radius a
  let rb := radius b
  let dx := bx - ax
  let dy := by' - ay
  let dist := Real.sqrt (dx * dx + dy * dy)
  let overlap := ra + rb - dist
  if 0 < overlap then
    ⟨true, overlap, if 0 < dist then ⟨dx / dist, dy / dist⟩ else ⟨1, 0⟩⟩
  else
    ⟨false, 0, ⟨0, 0⟩⟩

/-- `detectCircleCircle(a, b)`: distance between centers against the sum
of the effective radii `Math.min(w, h) / 2`; `normal` is
`(dx/dist, dy/dist)` with `dx = bx - ax`, falling back to `(1, 0)` when
the centers coincide. -/
noncomputable def detectCircleCircle (a b : Body) : CollisionResult :=
  let ax := a.x + a.w / 2
  let ay := a.y + a.h / 2
  let bx := b.x + b.w / 2
  let by' := b.y + b.h / 2
  let ra := min a.w a.h / 2
  let rb := min b.w b.h / 2
  let dx := bx - ax
  let dy := by' - ay
  let dist := Real.sqrt (dx * dx + dy * dy)
  let overlap := ra + rb - dist
  if 0 < overlap then
    ⟨true, overlap, if 0 < dist then ⟨dx / dist, dy / dist⟩ else ⟨1, 0⟩⟩
  else
    ⟨false, 0, ⟨0, 0⟩⟩

/-- Projection extent of a polygon on an axis, the `{min, max}` pair of
`projectPolygon`.  JS folds from `(Infinity, -Infinity)`; on the nonempty
vertex lists reachable here this equals folding from the first
projection (the empty case is unreachable and returns `(0, 0)`). -/
noncomputable def projectPolygon (vertices : List Vec2) (axis : Vec2) : ℝ × ℝ :=
  match vertices.map (fun v => v.x * axis.x + v.y * axis.y) with
  | [] => (0, 0)
  | p :: ps => (ps.foldl min p, ps.foldl max p)

/-- The edge-normal axes built inline by `detectCirclePolygon` and
`detectPolygonPolygon`: for each edge `v1 -> v2` (with wrap-around) the
axis is `(-edgeY/len, edgeX/len)` where `len` is the edge length. -/
noncomputable def edgeAxes (vertices : List Vec2) : List Vec2 :=
  (vertices.zip (vertices.rotate 1)).map fun p =>
    let edgeX := p.2.x - p.1.x
    let edgeY := p.2.y - p.1.y
    let len := Real.sqrt (edgeX * edgeX + edgeY * edgeY)
    ⟨-edgeY / len, edgeX / len⟩

/-- `projectCircleAndPolygon(cx, cy, r, normalX, normalY, vertices)`. -/
noncomputable def projectCircleAndPolygon (cx cy r normalX normalY : ℝ)
    (vertices : List Vec2) : Bool × ℝ :=
  let circleProj := cx * normalX + cy * normalY
  let circleMin := circleProj - r
  let circleMax := circleProj + r
  let pm := projectPolygon vertices ⟨normalX, normalY⟩
  if circleMax < pm.1 ∨ pm.2 < circleMin then (false, 0)
  else (true, min (circleMax - pm.1) (pm.2 - circleMin))

/-- The running minimum-overlap / collision-normal accumulator of the
circle-polygon edge loop.  JS starts from `(Infinity, (0,0))`; on a
nonempty axis list the first axis always improves on Infinity, so the
fold starts from the first axis (the empty case is unreachable). -/
noncomputable def minCircleAxis (cx cy r : ℝ) (vertices : List Vec2) :
    List Vec2 → ℝ × Vec2
  | [] => (0, ⟨0, 0⟩)
  | ax :: rest =>
    rest.foldl
      (fun acc ax' =>
        let ov := (projectCircleAndPolygon cx cy r ax'.x ax'.y vertices).2
        if ov < acc.1 then (ov, ax') else acc)
      ((projectCircleAndPolygon cx cy r ax.x ax.y vertices).2, ax)

/-- The closest-vertex scan of `detectCirclePolygon`: JS starts from
`closestDist = Infinity, closestVertex = null` and keeps the first
strict improvement, so on a nonempty list it is a fold from the head. -/
noncomputable def closestVertexTo (cx cy : ℝ) : List Vec2 → Option Vec2
  | [] => none
  | v :: vs =>
    some <| vs.foldl
      (fun best v' =>
        if (v'.x - cx) * (v'.x - cx) + (v'.y - cy) * (v'.y - cy) <
            (best.x - cx) * (best.x - cx) + (best.y - cy) * (best.y - cy)
        then v' else best)
      v

/-- `detectCirclePolygon(circle, poly)` with the effective circle radius
abstracted (claim C2).  The JS loop interleaves the separation early
exit with minimum tracking; returning not-colliding when any edge axis
separates and otherwise folding the minimum over all edge axes is
observationally the same and is the form used here.  The closest-vertex
axis phase follows the source line by line. -/
noncomputable def detectCirclePolygonWithRadius (radius : Body → ℝ)
    (circle poly : Body) : CollisionResult :=
  let cx := circle.x + circle.w / 2
  let cy := circle.y + circle.h / 2
  let r := radius circle
  let vertices := getVertices poly
  if vertices.length = 0 then ⟨false, 0, ⟨0, 0⟩⟩
  else
    let axes := edgeAxes vertices
    if ∃ ax ∈ axes, (projectCircleAndPolygon cx cy r ax.x ax.y vertices).1 = false then
      ⟨false, 0, ⟨0, 0⟩⟩
    else
      let acc := minCircleAxis cx cy r vertices axes
      match closestVertexTo cx cy vertices with
      | none => ⟨true, acc.1, acc.2⟩
      | some v =>
        let dx := cx - v.x
        let dy := cy - v.y
        let len := Real.sqrt (dx * dx + dy * dy)
        if 0 < len then
          let normalX := dx / len
          let normalY := dy / len
          let res := projectCircleAndPolygon cx cy r normalX normalY vertices
          if res.1 = false then ⟨false, 0, ⟨0, 0⟩⟩
          else if res.2 < acc.1 then ⟨true, res.2, ⟨normalX, normalY⟩⟩
          else ⟨true, acc.1, acc.2⟩
        else ⟨true, acc.1, acc.2⟩

/-- `detectCirclePolygon(circle, poly)` as in the source, with the
effective radius `Math.min(w, h) / 2`; otherwise identical to the
abstracted version above. -/
noncomputable def detectCirclePolygon (circle poly : Body) : CollisionResult :=
  let cx := circle.x + circle.w / 2
  let cy := circle.y + circle.h / 2
  let r := min circle.w circle.h / 2
  let vertices := getVertices poly
  if vertices.length = 0 then ⟨false, 0, ⟨0, 0⟩⟩
  else
    let axes := edgeAxes vertices
    if ∃ ax ∈ axes, (projectCircleAndPolygon cx cy r ax.x ax.y vertices).1 = false then
      ⟨false, 0, ⟨0, 0⟩⟩
    else
      let acc := minCircleAxis cx cy r vertices axes
      match closestVertexTo cx cy vertices with
      | none => ⟨true, acc.1, acc.2⟩
      | some v =>
        let dx := cx - v.x
        let dy := cy - v.y
        let len := Real.sqrt (dx * dx + dy * dy)
        if 0 < len then
          let normalX := dx / len
          let normalY := dy / len
          let res := projectCircleAndPolygon cx cy r normalX normalY vertices
          if res.1 = false then ⟨false, 0, ⟨0, 0⟩⟩
          else if res.2 < acc.1 then ⟨true, res.2, ⟨normalX, normalY⟩⟩
          else ⟨true, acc.1, acc.2⟩
        else ⟨true, acc.1, acc.2⟩

/-- Per-axis overlap of `detectPolygonPolygon`:
`min(projA.max - projB.min, projB.max - projA.min)`. -/
noncomputable def overlapOn (vsA vsB : List Vec2) (axis : Vec2) : ℝ :=
  min ((projectPolygon vsA axis).2 - (projectPolygon vsB axis).1)
    ((projectPolygon vsB axis).2 - (projectPolygon vsA axis).1)

/-- Per-axis separation test of `detectPolygonPolygon`:
`projA.max < projB.min || projB.max < projA.min`. -/
noncomputable def separatedOn (vsA vsB : List Vec2) (axis : Vec2) : Prop :=
  (projectPolygon vsA axis).2 < (projectPolygon vsB axis).1 ∨
    (projectPolygon vsB axis).2 < (projectPolygon vsA axis).1

noncomputable instance (vsA vsB : List Vec2) (axis : Vec2) :
    Decidable (separatedOn vsA vsB axis) := by
  unfold separatedOn; infer_instance

/-- The minimum-overlap axis fold of `detectPolygonPolygon`; as in
`minCircleAxis`, the JS `(Infinity, (0,0))` start is realized by folding
from the first axis of the (always nonempty) axis list. -/
noncomputable def minOverlapAxis (vsA vsB : List Vec2) : List Vec2 → ℝ × Vec2
  | [] => (0, ⟨0, 0⟩)
  | ax :: rest =>
    rest.foldl
      (fun acc ax' =>
        if overlapOn vsA vsB ax' < acc.1 then (overlapOn vsA vsB ax', ax') else acc)
      (overlapOn vsA vsB ax, ax)

/-- `detectPolygonPolygon(a, b)`: SAT over the edge normals of both
polygons; the normal of minimal overlap is sign-corrected to point from
b's center toward a's center.  As above, the early separation exit is
expressed as an existential over the axis list. -/
noncomputable def detectPolygonPolygon (a b : Body) : CollisionResult :=
  let verticesA := getVertices a
  let verticesB := getVertices b
  if verticesA.length = 0 ∨ verticesB.length = 0 then ⟨false, 0, ⟨0, 0⟩⟩
  else
    let centerA : Vec2 := ⟨a.x + a.w / 2, a.y + a.h / 2⟩
    let centerB : Vec2 := ⟨b.x + b.w / 2, b.y + b.h / 2⟩
    let axes := edgeAxes verticesA ++ edgeAxes verticesB
    if ∃ ax ∈ axes, separatedOn verticesA verticesB ax then ⟨false, 0, ⟨0, 0⟩⟩
    else
      let best := minOverlapAxis verticesA verticesB axes
      let dx := centerA.x - centerB.x
      let dy := centerA.y - centerB.y
      let dot := dx * best.2.x + dy * best.2.y
      if dot < 0 then ⟨true, best.1, ⟨-best.2.x, -best.2.y⟩⟩
      else ⟨true, best.1, best.2⟩

/-- `detectCollision(a, b)`: dispatch on the shape tags; in the
polygon-vs-circle case the circle-polygon result's normal is flipped to
point toward `a`. -/
noncomputable def detectCollision (a b : Body) : CollisionResult :=
  if a.shape = circleTag ∧ b.shape = circleTag then
    detectCircleCircle a b
  else if a.shape = circleTag ∧ b.shape ≠ circleTag then
    detectCirclePolygon a b
  else if a.shape ≠ circleTag ∧ b.shape = circleTag then
    let result := detectCirclePolygon b a
    if result.colliding then
      { result with normal := ⟨-result.normal.x, -result.normal.y⟩ }
    else result
  else
    detectPolygonPolygon a b

/-- `GRAVITY` of the kinematic variant. -/
def GRAVITY : ℝ := 1800

/-- `FRICTION`. -/
noncomputable def FRICTION : ℝ := 0.85

/-- `MIN_VELOCITY`, the jitter-elimination threshold. -/
noncomputable def MIN_VELOCITY : ℝ := 0.1

/-- Modelled from the spec: `FLOOR_HEIGHT` is imported from
`src/core/constants.js`, which is not among the sources; section 8 of the
spec uses the value 60 (`world.height=1080, FLOOR_HEIGHT=60`). -/
def FLOOR_HEIGHT : ℝ := 60

/-- `resolveCollision(body, other, result)` of the kinematic variant:
positional correction along the normal, then ground / ceiling / wall /
general classification by the normal's y component.  Only `body` is ever
mutated; `other` is unused by this variant. -/
noncomputable def resolveCollision (body : Body) (other : Body)
    (result : CollisionResult) : Body :=
  let overlap := result.overlap
  let normal := result.normal
  let body :=
    { body with x := body.x + normal.x * overlap, y := body.y + normal.y * overlap }
  if normal.y < -0.3 then
    { body with onGround := true, vy := 0, vx := body.vx * FRICTION }
  else if normal.y > 0.3 then
    if body.vy < 0 then { body with vy := 0 } else body
  else if |normal.y| < 0.7 then
    let velDot := body.vx * normal.x + body.vy * normal.y
    if velDot < 0 then
      { body with vx := body.vx - normal.x * velDot, vy := body.vy - normal.y * velDot }
    else body
  else
    let velDot := body.vx * normal.x + body.vy * normal.y
    if velDot < 0 then
      { body with vx := body.vx - normal.x * velDot * 0.8,
                  vy := body.vy - normal.y * velDot * 0.8 }
    else body

/-- One pass of the inner collision loop of `step`: resolve against every
static body in list order, reporting whether any collision occurred.
The JS guard `!other.isStatic || other === body` reduces to staticness
because `body` is dynamic here. -/
noncomputable def collidePass (statics : List Body) (body : Body) : Body × Bool :=
  statics.foldl
    (fun acc other =>
      let result := detectCollision acc.1 other
      if result.colliding then (resolveCollision acc.1 other result, true) else acc)
    (body, false)

/-- The bounded `while (collisionIterations < maxIterations)` loop of
`step`: repeat `collidePass` while it reports a collision, at most the
given number of passes. -/
noncomputable def collisionLoop : ℕ → List Body → Body → Body
  | 0, _, body => body
  | Nat.succ n, statics, body =>
    let p := collidePass statics body
    if p.2 then collisionLoop n statics p.1 else p.1

/-- The final two lines of the `step` loop body ("Apply velocity
threshold to stop jittering"): snap vx, and vy-when-grounded, to zero
below `MIN_VELOCITY`. -/
noncomputable def applyVelocityThreshold (body : Body) : Body :=
  let body := if |body.vx| < MIN_VELOCITY then { body with vx := 0 } else body
  if |body.vy| < MIN_VELOCITY ∧ body.onGround then { body with vy := 0 } else body

/-- The loop body of the kinematic `step` for one dynamic body: gravity,
integration, ground-flag reset, world bounds, floor, the bounded
static-collision loop (`maxIterations = 3`), and the final
minimum-velocity snap. -/
noncomputable def stepBody (world : World) (statics : List Body) (dt : ℝ)
    (body : Body) : Body :=
  let body := { body with vy := body.vy + GRAVITY * dt }
  let body :=
    { body with x := body.x + body.vx * dt, y := body.y + body.vy * dt,
                onGround := false }
  let body := if body.x < 0 then { body with x := 0, vx := 0 } else body
  let body :=
    if body.x + body.w > world.width then
      { body with x := world.width - body.w, vx := 0 }
    else body
  let floorY := world.height - FLOOR_HEIGHT
  let body :=
    if body.y + body.h > floorY then
      { body with y := floorY - body.h, vy := 0, onGround := true,
                  vx := body.vx * FRICTION }
    else body
  let body := collisionLoop 3 statics body
  applyVelocityThreshold body

/-- `step(world, dt)` of the kinematic variant.  In JS the bodies mutate
in place, but a dynamic body only ever reads the static bodies (which
`step` never mutates), so processing the bodies independently against
the pre-filtered static list is faithful. -/
noncomputable def step (world : World) (dt : ℝ) : World :=
  let statics := world.bodies.filter (fun b => b.isStatic)
  { world with
      bodies := world.bodies.map fun b =>
        if b.isStatic then b else stepBody world statics dt b }

/-- `pointInBrick(brick, px, py)`: circles test the inversely rotated
normalized point against the unit circle of radius 0.5 about
(0.5, 0.5); rects and triangles ray-cast against the rotated vertices. -/
noncomputable def pointInBrick (brick : Body) (px py : ℝ) : Bool :=
  if brick.shape = circleTag then
    let localX := (px - brick.x) / brick.w
    let localY := (py - brick.y) / brick.h
    let c := Real.cos (-brick.rotation)
    let s := Real.sin (-brick.rotation)
    let offsetX := localX - 0.5
    let offsetY := localY - 0.5
    let rotatedX := offsetX * c - offsetY * s + 0.5
    let rotatedY := offsetX * s + offsetY * c + 0.5
    let dx := rotatedX - 0.5
    let dy := rotatedY - 0.5
    decide (dx * dx + dy * dy ≤ 0.25)
  else if brick.shape = triangleTag ∨ brick.shape = rectTag then
    let vertices := getVertices brick
    if vertices.length = 0 then false
    else
      (vertices.zip (vertices.rotate (vertices.length - 1))).foldl
        (fun inside p =>
          let xi := p.1.x
          let yi := p.1.y
          let xj := p.2.x
          let yj := p.2.y
          if ((yi > py) ≠ (yj > py)) ∧ (px < (xj - xi) * (py - yi) / (yj - yi) + xi)
          then !inside else inside)
        false
  else false

namespace Impulse

/-- A physics body of the impulse-based variant (`src/physics/index.js`,
second half): the kinematic fields plus angular velocity, mass data and
restitution. -/
structure Body where
  id : String
  x : ℝ
  y : ℝ
  w : ℝ
  h : ℝ
  vx : ℝ
  vy : ℝ
  rotation : ℝ
  angularVelocity : ℝ
  isStatic : Bool
  onGround : Bool
  shape : String
  color : List ℝ
  z : ℤ
  mass : ℝ
  invMass : ℝ
  restitution : ℝ
  density : ℝ

/-- The world of the impulse-based variant. -/
structure World where
  width : ℝ
  height : ℝ
  bodies : List Body
  bricks : List Body

/-- `createWorld(width, height)` of the impulse-based variant. -/
def createWorld (width height : ℝ) : World :=
  { width := width, height := height, bodies := [], bricks := [] }

/-- The options object of the impulse-based `brick` factory. -/
structure Opts where
  id : Option String
  rotation : Option ℝ
  angularVelocity : Option ℝ
  shape : Option String
  color : Option (List ℝ)
  z : Option ℝ
  density : Option ℝ
  restitution : Option ℝ
  mass : Option ℝ

/-- `calculateMass(shape, w, h, density)`: area (ellipse, triangle or
rectangle by shape tag) times density. -/
noncomputable def calculateMass (shape : String) (w h density : ℝ) : ℝ :=
  if shape = circleTag then Real.pi * (w / 2) * (h / 2) * density
  else if shape = triangleTag then (w * h) / 2 * density
  else w * h * density

/-- `brick(world, x, y, w, h, opts)` of the impulse-based variant: the
body is flagged static, yet its `invMass` is `1/mass` whenever
`mass > 0` (the comment in the source says 0 means infinite mass).
`opts.restitution !== undefined` is a presence test, not truthiness. -/
noncomputable def brick (world : World) (x y w h : ℝ) (opts : Opts) :
    World × Body :=
  let shape := jsOrStr opts.shape rectTag
  let density := jsOrNum opts.density 1.0
  let mass := jsOrNum opts.mass (calculateMass shape w h density)
  let body : Body :=
    { id := jsOrStr opts.id "brick_gen"
      x := x, y := y, w := w, h := h
      vx := 0, vy := 0
      rotation := jsOrNum opts.rotation 0
      angularVelocity := jsOrNum opts.angularVelocity 0
      isStatic := true
      onGround := false
      shape := shape
      color := jsOrColor opts.color [0.8, 0.4, 0.2, 1.0]
      z := jsRoundZ opts.z
      mass := mass
      invMass := if mass > 0 then 1 / mass else 0
      restitution := opts.restitution.getD 0.3
      density := density }
  ({ world with bodies := world.bodies ++ [body], bricks := world.bricks ++ [body] },
    body)

/-- An options object with every field absent, the JS `{}`. -/
def emptyOpts : Opts := ⟨none, none, none, none, none, none, none, none, none⟩

end Impulse

namespace AnimationController

/-- The duck-typed actor consumed by the animation controller: position,
size, velocity and the grounded flag.  The state machine's arithmetic is
exact, so JS numbers are embedded as rationals here. -/
structure Actor where
  x : ℚ
  y : ℚ
  w : ℚ
  h : ℚ
  vx : ℚ
  vy : ℚ
  onGround : Bool

/-- The controller state of `AnimationController` (`src/animation.js`).
The `skeleton` field interpolates display joints through trigonometric
pose functions and is read by nothing the controller's state machine
depends on, so it is omitted from the embedding. -/
structure State where
  currentState : String
  previousState : String
  stateTime : ℚ
  totalTime : ℚ
  landSquash : ℚ
  landSquashDecay : ℚ
  visualOffsetX : ℚ
  visualOffsetY : ℚ
  facingRight : Bool
  turnProgress : ℚ

/-- Animation state tag `idle`. -/
def idleTag : String := "idle"

/-- Animation state tag `walk`. -/
def walkTag : String := "walk"

/-- Animation state tag `jump_up`. -/
def jumpUpTag : String := "jump_up"

/-- Animation state tag `peak`. -/
def peakTag : String := "peak"

/-- Animation state tag `fall`. -/
def fallTag : String := "fall"

/-- Animation state tag `land`. -/
def landTag : String := "land"

/-- `ANIMATION_CONFIG.squashStretch`. -/
def squashStretch : ℚ := 0.2

/-- `ANIMATION_CONFIG.speeds.land`. -/
def landSpeed : ℚ := 15.0

/-- `ANIMATION_CONFIG.speeds.turn`. -/
def turnSpeed : ℚ := 12.0

/-- `ANIMATION_CONFIG.visualLag`. -/
def visualLag : ℚ := 8.0

/-- The freshly constructed controller. -/
def init : State :=
  { currentState := idleTag, previousState := idleTag
    stateTime := 0, totalTime := 0
    landSquash := 0, landSquashDecay := 0
    visualOffsetX := 0, visualOffsetY := 0
    facingRight := true, turnProgress := 0 }

/-- `lerp(a, b, t)`. -/
def lerp (a b t : ℚ) : ℚ := a + (b - a) * t

/-- `determineState(player)`: returns the new state tag together with the
controller (whose squash fields are set when a landing is detected). -/
def determineState (c : State) (player : Actor) : String × State :=
  let wasOnGround :=
    c.previousState ≠ jumpUpTag ∧ c.previousState ≠ peakTag ∧
      c.previousState ≠ fallTag
  if ¬wasOnGround ∧ player.onGround = true ∧ c.currentState ≠ landTag then
    (landTag, { c with landSquash := squashStretch, landSquashDecay := landSpeed })
  else if c.currentState = landTag ∧ c.stateTime < 0.15 then
    (landTag, c)
  else if player.onGround = false then
    (if player.vy < -100 then jumpUpTag
     else if player.vy < 100 then peakTag
     else fallTag, c)
  else if |player.vx| > 10 then (walkTag, c)
  else (idleTag, c)

/-- `update(player, dt)` for the state-machine fields: advance the
clocks, run `determineState` and record a transition, smooth the facing
direction, decay the landing squash, and drag the lagged visual center.
The skeleton pose interpolation mutates only the omitted skeleton. -/
def update (c : State) (player : Actor) (dt : ℚ) : State :=
  let c := { c with totalTime := c.totalTime + dt }
  let r := determineState c player
  let newState := r.1
  let c := r.2
  let c :=
    if newState ≠ c.currentState then
      { c with previousState := c.currentState, currentState := newState,
               stateTime := 0 }
    else { c with stateTime := c.stateTime + dt }
  let targetFacing :=
    if player.vx > 0 then true else if player.vx < 0 then false else c.facingRight
  let c : State :=
    if targetFacing ≠ c.facingRight then
      let tp := min 1 (c.turnProgress + dt * turnSpeed)
      if tp ≥ 1 then { c with facingRight := targetFacing, turnProgress := 0 }
      else { c with turnProgress := tp }
    else { c with turnProgress := 0 }
  let c : State :=
    if c.landSquash > 0 then
      { c with landSquash := max 0 (c.landSquash - dt * c.landSquashDecay) }
    else c
  let targetOffsetX := player.x + player.w / 2
  let targetOffsetY := player.y + player.h / 2
  { c with visualOffsetX := lerp c.visualOffsetX targetOffsetX (dt * visualLag),
           visualOffsetY := lerp c.visualOffsetY targetOffsetY (dt * visualLag) }

/-- Iterated `update` over a list of per-frame actors and deltas. -/
def runUpdates (c : State) (l : List (Actor × ℚ)) : State :=
  l.foldl (fun c pd => update c pd.1 pd.2) c

end AnimationController

/-- Modelled from the spec: the radius the spec claims for circles in the
collision routines, "the average of half-width/half-height as an
effective radius" (claim C2).  The code itself uses `min(w, h) / 2`. -/
noncomputable def specAvgRadius (c : Body) : ℝ := (c.w / 2 + c.h / 2) / 2

/-- A static circle body with the factory defaults, used for the
concrete test inputs below. -/
noncomputable def circleBody (x y w h : ℝ) : Body :=
  { id := "c", x := x, y := y, w := w, h := h, vx := 0, vy := 0, rotation := 0,
    isStatic := true, onGround := false, shape := circleTag,
    color := [0.8, 0.4, 0.2, 1.0], z := 0 }

/-- Circle of radius 1 centered at (1, 1). -/
noncomputable def circA : Body := circleBody 0 0 2 2

/-- Circle of radius 1 centered at (2, 1); overlaps `circA`. -/
noncomputable def circB : Body := circleBody 1 0 2 2

/-- A 2-by-4 "circle" centered at (1, 2): effective min-radius 1,
spec-claimed average radius 1.5. -/
noncomputable def circC : Body := circleBody 0 0 2 4

/-- Circle of radius 1 centered at (3.25, 2): distance 2.25 from
`circC`'s center, between the min-radius sum 2 and the average-radius
sum 2.5. -/
noncomputable def circD : Body := circleBody 2.25 1 2 2

/-- Circle of radius 0.5 centered at (1, 1): its center coincides with
`circA`'s. -/
noncomputable def circE : Body := circleBody 0.5 0.5 1 1

/-- A 4-by-2 circle brick: its hit-test region is the full 4x2 ellipse,
while the collision routines use the disc of radius min(4,2)/2 = 1. -/
noncomputable def ellBrick : Body := circleBody 0 0 4 2

/-- An unrotated 2-by-2 rect body at the origin (center (1, 1)). -/
noncomputable def rectA : Body :=
  { id := "r1", x := 0, y := 0, w := 2, h := 2, vx := 0, vy := 0, rotation := 0,
    isStatic := true, onGround := false, shape := rectTag,
    color := [0.8, 0.4, 0.2, 1.0], z := 0 }

/-- A second rect body coincident with `rectA` (only the id differs):
every SAT axis is tied and the centers coincide, so the minimal-axis
choice and the center sign-correction both degenerate. -/
noncomputable def rectB : Body :=
  { id := "r2", x := 0, y := 0, w := 2, h := 2, vx := 0, vy := 0, rotation := 0,
    isStatic := true, onGround := false, shape := rectTag,
    color := [0.8, 0.4, 0.2, 1.0], z := 0 }

/-- The world used as the round-trip witness: one circle brick made by
the factory. -/
noncomputable def w4 : World :=
  (brick (createWorld 100 100) 1 2 3 4
    ⟨none, some 0.5, some circleTag, some [1, 0, 0, 1], none⟩).1

/-- The world used as the step witness: one static brick. -/
noncomputable def w8 : World :=
  (brick (createWorld 800 600) 10 20 30 40 ⟨none, none, none, none, none⟩).1

/-- The simulation-relevant fields of a brick listed in claim C4. -/
def brickFields (b : Body) : ℝ × ℝ × ℝ × ℝ × String × List ℝ × ℝ × ℤ :=
  (b.x, b.y, b.w, b.h, b.shape, b.color, b.rotation, b.z)

/-- The body that reloading one serialized record creates (the factory
body does not depend on the world it is pushed into). -/
noncomputable def recordBody (item : BrickRecord) : Body :=
  (brick (createWorld 0 0) item.x item.y item.w item.h
    ⟨none, some item.rotation, some item.shape, some item.color, some item.z⟩).2

/-- A controller that has been falling for a while: current state `fall`
entered from `peak`. -/
def fallingState : AnimationController.State :=
  { AnimationController.init with
      currentState := AnimationController.fallTag
      previousState := AnimationController.peakTag
      stateTime := 2 }

/-- A grounded actor moving fast enough that the velocity rules alone
would select `walk`. -/
def groundedWalker : AnimationController.Actor :=
  ⟨0, 0, 40, 48, 50, 0, true⟩

/-- An airborne actor rising fast (vy = -150). -/
def risingActor : AnimationController.Actor :=
  ⟨0, 0, 40, 48, 0, -150, false⟩

lemma sqrt_self_mul_self (a : ℝ) (h : 0 ≤ a) : Real.sqrt (a * a + 0 * 0) = a := by
  simpa using Real.sqrt_mul_self h

lemma detect_circA_circB : detectCollision circA circB = ⟨true, 1, ⟨1, 0⟩⟩ := by
  unfold detectCollision
  rw [if_pos ⟨rfl, rfl⟩]
  unfold detectCircleCircle
  have h1 : Real.sqrt ((circB.x + circB.w / 2 - (circA.x + circA.w / 2)) *
      (circB.x + circB.w / 2 - (circA.x + circA.w / 2)) +
      (circB.y + circB.h / 2 - (circA.y + circA.h / 2)) *
      (circB.y + circB.h / 2 - (circA.y + circA.h / 2))) = 1 := by
    rw [show (circB.x + circB.w / 2 - (circA.x + circA.w / 2)) = 1 by
      norm_num [circA, circB, circleBody]]
    rw [show (circB.y + circB.h / 2 - (circA.y + circA.h / 2)) = 0 by
      norm_num [circA, circB, circleBody]]
    exact sqrt_self_mul_self 1 (by norm_num)
  simp only [h1]
  norm_num [circA, circB, circleBody]

/-- C1: for circle-circle pairs the code's normal is the unit vector from
a's center toward b's center, not from b toward a as the claim (and the
engine's own convention, the "Flip normal to point toward A" comment and
`resolveCollision`'s push-out direction) require.  At the failing input
`circA`, `circB` the centers are (1,1) and (2,1): the claim demands the
normal (-1, 0), but the code returns (1, 0), the direction from a to b.
The coincident-centers fallback (1, 0) itself is as claimed. -/
theorem c1_circleCircle_normal_direction_bug :
    (detectCollision circA circB).colliding = true ∧
    (detectCollision circA circB).normal.x = 1 ∧
    (detectCollision circA circB).normal.y = 0 ∧
    (circB.x + circB.w / 2) - (circA.x + circA.w / 2) = 1 ∧
    (circB.y + circB.h / 2) - (circA.y + circA.h / 2) = 0 := by
  rw [detect_circA_circB]
  refine ⟨rfl, rfl, rfl, ?_, ?_⟩ <;> norm_num [circA, circB, circleBody]

/-- C3: the impulse-based `brick` factory marks every brick static but
stores `invMass = 1/mass` whenever `mass > 0`, so a plain 1-by-1 rect
brick has inverse mass 1, not 0 as the claim (and the source's own
"0 for infinite mass" / "treat as infinite mass" comments) require. -/
theorem c3_static_brick_invMass_bug :
    (Impulse.brick (Impulse.createWorld 800 600) 0 0 1 1 Impulse.emptyOpts).2.isStatic
        = true ∧
    (Impulse.brick (Impulse.createWorld 800 600) 0 0 1 1 Impulse.emptyOpts).2.invMass
        = 1 ∧
    (Impulse.brick (Impulse.createWorld 800 600) 0 0 1 1 Impulse.emptyOpts).2.invMass
        ≠ 0 := by
  refine ⟨rfl, ?_, ?_⟩ <;>
    norm_num [Impulse.brick, Impulse.emptyOpts, Impulse.calculateMass,
      jsOrStr, jsOrNum, rectTag, circleTag, triangleTag,
      if_neg (by decide : ("rect" : String) ≠ "circle"),
      if_neg (by decide : ("rect" : String) ≠ "triangle")]

lemma dist_circC_circD :
    Real.sqrt ((circD.x + circD.w / 2 - (circC.x + circC.w / 2)) *
      (circD.x + circD.w / 2 - (circC.x + circC.w / 2)) +
      (circD.y + circD.h / 2 - (circC.y + circC.h / 2)) *
      (circD.y + circD.h / 2 - (circC.y + circC.h / 2))) = 2.25 := by
  rw [show (circD.x + circD.w / 2 - (circC.x + circC.w / 2)) = 2.25 by
    norm_num [circC, circD, circleBody]]
  rw [show (circD.y + circD.h / 2 - (circC.y + circC.h / 2)) = 0 by
    norm_num [circC, circD, circleBody]]
  exact sqrt_self_mul_self 2.25 (by norm_num)

/-- C2 counterexample: on the 2-by-4 circle `circC` against `circD`
(center distance 2.25) the code reports no collision (min-radius sum 2),
while the spec's average-radius rule (sum 2.5) would report one; so the
collision routines do not use the average of half-width and half-height
as the effective radius. -/
theorem c2_avg_radius_counterexample :
    (detectCollision circC circD).colliding = false ∧
    (detectCircleCircleWithRadius specAvgRadius circC circD).colliding = true := by
  constructor
  · unfold detectCollision
    rw [if_pos ⟨rfl, rfl⟩]
    unfold detectCircleCircle
    simp only [dist_circC_circD]
    norm_num [circC, circD, circleBody]
  · unfold detectCircleCircleWithRadius
    simp only [dist_circC_circD]
    norm_num [circC, circD, circleBody, specAvgRadius]

/-- C2 amended: for every circle-shaped body, the collision routines use
half the minimum of width and height, `min(w, h) / 2`, as the circle's
effective radius: both `detectCircleCircle` and `detectCirclePolygon`
coincide with their radius-abstracted forms instantiated at that
radius (and not, per the counterexample, at the spec's average). -/
theorem c2_min_radius_amended :
    (∀ a b : Body, detectCircleCircle a b =
        detectCircleCircleWithRadius (fun c => min c.w c.h / 2) a b) ∧
    (∀ circle poly : Body, detectCirclePolygon circle poly =
        detectCirclePolygonWithRadius (fun c => min c.w c.h / 2) circle poly) :=
  ⟨fun _ _ => rfl, fun _ _ => rfl⟩

/-- C10: for a circle brick with positive width and height, `pointInBrick`
returns true exactly when the point, mapped into the brick's inversely
rotated normalized local frame, lies within distance 1/2 of the center
(1/2, 1/2); and (final two conjuncts) the 4-by-2 circle brick accepts the
point (3.5, 1), which lies at distance 1.5 > 1 = min(w,h)/2 from the
brick's center (2, 1) - hit-testing uses the full w-by-h inscribed
ellipse, not the disc the collision routines use for the same brick. -/
theorem c10_pointInBrick_circle_ellipse (b : Body) (hs : b.shape = circleTag)
    (hw : 0 < b.w) (hh : 0 < b.h) (px py : ℝ) :
    (pointInBrick b px py = true ↔
      (let localX := (px - b.x) / b.w
       let localY := (py - b.y) / b.h
       let rx := (localX - 1 / 2) * Real.cos (-b.rotation) -
         (localY - 1 / 2) * Real.sin (-b.rotation) + 1 / 2
       let ry := (localX - 1 / 2) * Real.sin (-b.rotation) +
         (localY - 1 / 2) * Real.cos (-b.rotation) + 1 / 2
       (rx - 1 / 2) ^ 2 + (ry - 1 / 2) ^ 2 ≤ (1 / 2) ^ 2)) ∧
    pointInBrick ellBrick 3.5 1 = true ∧
    ¬((3.5 - 2) ^ 2 + ((1 : ℝ) - 1) ^ 2 ≤ (min ellBrick.w ellBrick.h / 2) ^ 2) := by
  refine ⟨?_, ?_, ?_⟩
  · unfold pointInBrick
    rw [if_pos hs, decide_eq_true_eq]
    constructor <;> intro h <;> nlinarith [h]
  · unfold pointInBrick
    rw [if_pos (show ellBrick.shape = circleTag from rfl), decide_eq_true_eq]
    norm_num [ellBrick, circleBody, Real.cos_zero, Real.sin_zero]
  · norm_num [ellBrick, circleBody]

/-- Witness for C10: the 4-by-2 circle brick satisfies the hypotheses and
its center point (2, 1) instantiates the hit-test characterization. -/
theorem c10_pointInBrick_circle_ellipse_witness :
    ellBrick.shape = circleTag ∧ (0 : ℝ) < ellBrick.w ∧ (0 : ℝ) < ellBrick.h ∧
    (pointInBrick ellBrick 2 1 = true ↔
      (let localX := ((2 : ℝ) - ellBrick.x) / ellBrick.w
       let localY := ((1 : ℝ) - ellBrick.y) / ellBrick.h
       let rx := (localX - 1 / 2) * Real.cos (-ellBrick.rotation) -
         (localY - 1 / 2) * Real.sin (-ellBrick.rotation) + 1 / 2
       let ry := (localX - 1 / 2) * Real.sin (-ellBrick.rotation) +
         (localY - 1 / 2) * Real.cos (-ellBrick.rotation) + 1 / 2
       (rx - 1 / 2) ^ 2 + (ry - 1 / 2) ^ 2 ≤ (1 / 2) ^ 2)) :=
  ⟨rfl, by norm_num [ellBrick, circleBody], by norm_num [ellBrick, circleBody],
    (c10_pointInBrick_circle_ellipse ellBrick rfl
      (by norm_num [ellBrick, circleBody])
      (by norm_num [ellBrick, circleBody]) 2 1).1⟩

lemma determineState_keeps_land (c : AnimationController.State)
    (p : AnimationController.Actor)
    (hc : c.currentState = AnimationController.landTag) (ht : c.stateTime < 0.15) :
    AnimationController.determineState c p = (AnimationController.landTag, c) := by
  unfold AnimationController.determineState
  rw [if_neg (fun h => h.2.2 hc), if_pos ⟨hc, ht⟩]

lemma update_keeps_land (c : AnimationController.State)
    (p : AnimationController.Actor) (dt : ℚ)
    (hc : c.currentState = AnimationController.landTag) (ht : c.stateTime < 0.15) :
    (AnimationController.update c p dt).currentState =
      AnimationController.landTag := by
  unfold AnimationController.update
  dsimp only
  rw [determineState_keeps_land _ p (by simpa using hc) (by simpa using ht)]
  simp only [hc]
  split_ifs <;> simp_all

lemma land_hold_run (l : List (AnimationController.Actor × ℚ)) :
    ∀ c : AnimationController.State,
      c.currentState = AnimationController.landTag →
      (∀ k, k < l.length →
        (AnimationController.runUpdates c (l.take k)).stateTime < 0.15) →
      (AnimationController.runUpdates c l).currentState =
        AnimationController.landTag := by
  induction l with
  | nil => intro c hc _; simpa [AnimationController.runUpdates] using hc
  | cons s t ih =>
    intro c hc hk
    have h0 : c.stateTime < 0.15 := by
      simpa [AnimationController.runUpdates] using hk 0 (by simp)
    have hstep := update_keeps_land c s.1 s.2 hc h0
    have hrw : AnimationController.runUpdates c (s :: t) =
        AnimationController.runUpdates (AnimationController.update c s.1 s.2) t := by
      simp [AnimationController.runUpdates]
    rw [hrw]
    refine ih _ hstep fun k hkl => ?_
    simpa [AnimationController.runUpdates, List.take_succ_cons] using
      hk (k + 1) (by simpa using Nat.succ_lt_succ hkl)

lemma determineState_landing (c : AnimationController.State)
    (p : AnimationController.Actor)
    (hprev : c.previousState = AnimationController.jumpUpTag ∨
      c.previousState = AnimationController.peakTag ∨
      c.previousState = AnimationController.fallTag)
    (hg : p.onGround = true) (hne : c.currentState ≠ AnimationController.landTag) :
    AnimationController.determineState c p =
      (AnimationController.landTag,
        { c with landSquash := AnimationController.squashStretch,
                 landSquashDecay := AnimationController.landSpeed }) := by
  unfold AnimationController.determineState
  rw [if_pos]
  refine ⟨fun h => ?_, hg, hne⟩
  rcases hprev with h1 | h1 | h1
  · exact h.1 h1
  · exact h.2.1 h1
  · exact h.2.2 h1

lemma update_currentState (c : AnimationController.State)
    (p : AnimationController.Actor) (dt : ℚ) :
    (AnimationController.update c p dt).currentState =
      (AnimationController.determineState
        { c with totalTime := c.totalTime + dt } p).1 := by
  rcases hr : AnimationController.determineState
      { c with totalTime := c.totalTime + dt } p with ⟨ns, c2⟩
  unfold AnimationController.update
  dsimp only
  rw [hr]
  dsimp only
  by_cases h : ns ≠ c2.currentState
  · rw [if_pos h]
    split_ifs <;> rfl
  · rw [if_neg h]
    push_neg at h
    split_ifs <;> simp [h]

lemma update_stateTime (c : AnimationController.State)
    (p : AnimationController.Actor) (dt : ℚ) :
    (AnimationController.update c p dt).stateTime =
      if (AnimationController.determineState
            { c with totalTime := c.totalTime + dt } p).1 ≠
          (AnimationController.determineState
            { c with totalTime := c.totalTime + dt } p).2.currentState
      then 0
      else (AnimationController.determineState
            { c with totalTime := c.totalTime + dt } p).2.stateTime + dt := by
  rcases hr : AnimationController.determineState
      { c with totalTime := c.totalTime + dt } p with ⟨ns, c2⟩
  unfold AnimationController.update
  dsimp only
  rw [hr]
  dsimp only
  by_cases h : ns ≠ c2.currentState
  · rw [if_pos h, if_pos h]
    split_ifs <;> rfl
  · rw [if_neg h, if_neg h]
    split_ifs <;> rfl

lemma update_landing (c : AnimationController.State)
    (p : AnimationController.Actor) (dt : ℚ)
    (hprev : c.previousState = AnimationController.jumpUpTag ∨
      c.previousState = AnimationController.peakTag ∨
      c.previousState = AnimationController.fallTag)
    (hg : p.onGround = true)
    (hne : c.currentState ≠ AnimationController.landTag) :
    (AnimationController.update c p dt).currentState =
        AnimationController.landTag ∧
      (AnimationController.update c p dt).stateTime = 0 := by
  have hd := determineState_landing { c with totalTime := c.totalTime + dt } p
    (by simpa using hprev) hg (by simpa using hne)
  refine ⟨?_, ?_⟩
  · rw [update_currentState, hd]
  · rw [update_stateTime, hd]
    exact if_pos (by simpa using Ne.symm hne)

/-- C7: if an update fires the landing transition (current and previous
states airborne, actor grounded this frame), the controller enters
`land`; and over any sequence of subsequent updates — with arbitrary
actors, in particular arbitrary vx and vy — the state remains `land` as
long as the accumulated state time stays below the 0.15 s hold before
each update. -/
theorem c7_land_hold (c0 : AnimationController.State)
    (p0 : AnimationController.Actor) (dt0 : ℚ)
    (l : List (AnimationController.Actor × ℚ))
    (hcur : c0.currentState = AnimationController.jumpUpTag ∨
      c0.currentState = AnimationController.peakTag ∨
      c0.currentState = AnimationController.fallTag)
    (hprev : c0.previousState = AnimationController.jumpUpTag ∨
      c0.previousState = AnimationController.peakTag ∨
      c0.previousState = AnimationController.fallTag)
    (hg : p0.onGround = true)
    (hhold : ∀ k, k < l.length →
      (AnimationController.runUpdates (AnimationController.update c0 p0 dt0)
        (l.take k)).stateTime < 0.15) :
    (AnimationController.update c0 p0 dt0).currentState =
      AnimationController.landTag ∧
    (AnimationController.runUpdates (AnimationController.update c0 p0 dt0)
        l).currentState = AnimationController.landTag := by
  have hne : c0.currentState ≠ AnimationController.landTag := by
    rcases hcur with h | h | h <;> rw [h] <;> decide
  have h1 := (update_landing c0 p0 dt0 hprev hg hne).1
  exact ⟨h1, land_hold_run l _ h1 hhold⟩

/-- Witness for C7: a controller that entered `fall` from `peak` lands on
a grounded actor with vx = 50 (which would otherwise select `walk`), and
one further update within the hold window still reports `land`. -/
theorem c7_land_hold_witness :
    (fallingState.currentState = AnimationController.jumpUpTag ∨
      fallingState.currentState = AnimationController.peakTag ∨
      fallingState.currentState = AnimationController.fallTag) ∧
    groundedWalker.onGround = true ∧
    (AnimationController.update fallingState groundedWalker (1 / 100)).currentState =
      AnimationController.landTag ∧
    (AnimationController.runUpdates
        (AnimationController.update fallingState groundedWalker (1 / 100))
        [(groundedWalker, 1 / 100)]).currentState = AnimationController.landTag := by
  have hhold : ∀ k, k < ([(groundedWalker, (1 : ℚ) / 100)]).length →
      (AnimationController.runUpdates
        (AnimationController.update fallingState groundedWalker (1 / 100))
        (([(groundedWalker, (1 : ℚ) / 100)]).take k)).stateTime < 0.15 := by
    intro k hk
    have hk0 : k = 0 := by simpa using Nat.lt_one_iff.mp (by simpa using hk)
    subst hk0
    have hst := (update_landing fallingState groundedWalker (1 / 100)
      (Or.inr (Or.inl rfl)) rfl (by decide)).2
    simp only [List.take_zero]
    show (AnimationController.runUpdates
      (AnimationController.update fallingState groundedWalker (1 / 100))
      []).stateTime < 0.15
    rw [show (AnimationController.runUpdates
      (AnimationController.update fallingState groundedWalker (1 / 100)) []) =
        AnimationController.update fallingState groundedWalker (1 / 100) from rfl]
    rw [hst]
    norm_num
  have h := c7_land_hold fallingState groundedWalker (1 / 100)
    [(groundedWalker, 1 / 100)]
    (Or.inr (Or.inr rfl)) (Or.inr (Or.inl rfl)) rfl hhold
  exact ⟨Or.inr (Or.inr rfl), rfl, h.1, h.2⟩

/-- C6: outside the landing-transition case (previous state of grounded
type, or current state already `land`) and outside the land hold window,
`determineState` follows the velocity table: airborne actors get
`jump_up` below vy = -100, `peak` on [-100, 100), `fall` from 100 up;
grounded actors get `walk` above |vx| = 10 and `idle` otherwise. -/
theorem c6_determineState_cases (c : AnimationController.State)
    (p : AnimationController.Actor)
    (hnl : (c.previousState ≠ AnimationController.jumpUpTag ∧
            c.previousState ≠ AnimationController.peakTag ∧
            c.previousState ≠ AnimationController.fallTag) ∨
           c.currentState = AnimationController.landTag)
    (hnh : ¬(c.currentState = AnimationController.landTag ∧ c.stateTime < 0.15)) :
    (p.onGround = false →
      ((p.vy < -100 →
          (AnimationController.determineState c p).1 =
            AnimationController.jumpUpTag) ∧
       (-100 ≤ p.vy → p.vy < 100 →
          (AnimationController.determineState c p).1 =
            AnimationController.peakTag) ∧
       (100 ≤ p.vy →
          (AnimationController.determineState c p).1 =
            AnimationController.fallTag))) ∧
    (p.onGround = true →
      ((10 < |p.vx| →
          (AnimationController.determineState c p).1 =
            AnimationController.walkTag) ∧
       (|p.vx| ≤ 10 →
          (AnimationController.determineState c p).1 =
            AnimationController.idleTag))) := by
  have hno : ¬(¬(c.previousState ≠ AnimationController.jumpUpTag ∧
        c.previousState ≠ AnimationController.peakTag ∧
        c.previousState ≠ AnimationController.fallTag) ∧
      p.onGround = true ∧ c.currentState ≠ AnimationController.landTag) := by
    rcases hnl with h | h
    · exact fun hcon => hcon.1 h
    · exact fun hcon => hcon.2.2 h
  unfold AnimationController.determineState
  rw [if_neg hno, if_neg hnh]
  constructor
  · intro hg
    rw [if_pos hg]
    refine ⟨fun h => by rw [if_pos h], fun h1 h2 => ?_, fun h => ?_⟩
    · rw [if_neg (not_lt.mpr h1), if_pos h2]
    · rw [if_neg (not_lt.mpr (by linarith)), if_neg (not_lt.mpr h)]
  · intro hg
    rw [if_neg (by simp [hg] : ¬p.onGround = false)]
    exact ⟨fun h => by rw [if_pos h], fun h => by rw [if_neg (not_lt.mpr h)]⟩

/-- Witness for C6: the fresh controller (previous state `idle`, current
state `idle`) with the airborne actor at vy = -150 satisfies the
hypotheses and yields `jump_up`. -/
theorem c6_determineState_cases_witness :
    ((AnimationController.init.previousState ≠ AnimationController.jumpUpTag ∧
      AnimationController.init.previousState ≠ AnimationController.peakTag ∧
      AnimationController.init.previousState ≠ AnimationController.fallTag) ∨
      AnimationController.init.currentState = AnimationController.landTag) ∧
    ¬(AnimationController.init.currentState = AnimationController.landTag ∧
        AnimationController.init.stateTime < 0.15) ∧
    (AnimationController.determineState AnimationController.init risingActor).1 =
      AnimationController.jumpUpTag := by
  have h := c6_determineState_cases AnimationController.init risingActor
    (Or.inl (by refine ⟨?_, ?_, ?_⟩ <;> decide)) (by decide)
  exact ⟨Or.inl (by refine ⟨?_, ?_, ?_⟩ <;> decide), by decide,
    (h.1 rfl).1 (by decide)⟩

lemma loadBricks_bricks (data : List BrickRecord) :
    ∀ w : World, (loadBricks w data).bricks = w.bricks ++ data.map recordBody := by
  induction data with
  | nil => intro w; simp [loadBricks]
  | cons d ds ih =>
    intro w
    rw [show loadBricks w (d :: ds) =
        loadBricks (brick w d.x d.y d.w d.h
          ⟨none, some d.rotation, some d.shape, some d.color, some d.z⟩).1 ds from rfl]
    rw [ih]
    simp [brick, recordBody, createWorld]

/-- C4: reloading the serialized bricks of any world into a fresh world
reproduces bricks with the same x, y, w, h, shape, color, rotation and z,
for every valid brick list (factory bricks always have a nonempty shape
tag, which is what validity requires here: the loader treats the empty
string as an absent shape). -/
theorem c4_serialize_load_roundTrip (world : World) (W H : ℝ)
    (hvalid : ∀ b ∈ world.bricks, b.shape ≠ "") :
    ((loadBricks (createWorld W H) (serializeBricks world)).bricks).map brickFields
      = world.bricks.map brickFields := by
  rw [loadBricks_bricks]
  rw [show (createWorld W H).bricks = [] from rfl, List.nil_append,
    serializeBricks, List.map_map, List.map_map]
  refine List.map_congr_left fun b hb => ?_
  by_cases hr : b.rotation = 0 <;>
    simp [brickFields, recordBody, brick, jsOrStr, jsOrNum, jsOrColor, jsRoundZ,
      createWorld, hvalid b hb, hr, round_intCast]

/-- Witness for C4: the one-brick world `w4` has only nonempty shape tags
and round-trips. -/
theorem c4_serialize_load_roundTrip_witness :
    (∀ b ∈ w4.bricks, b.shape ≠ "") ∧
    ((loadBricks (createWorld 200 150) (serializeBricks w4)).bricks).map brickFields
      = w4.bricks.map brickFields := by
  have hv : ∀ b ∈ w4.bricks, b.shape ≠ "" := by
    intro b hb
    rw [show w4.bricks = [(brick (createWorld 100 100) 1 2 3 4
      ⟨none, some 0.5, some circleTag, some [1, 0, 0, 1], none⟩).2] from rfl] at hb
    rw [List.mem_singleton.mp hb]
    decide
  exact ⟨hv, c4_serialize_load_roundTrip w4 200 150 hv⟩

lemma applyVelocityThreshold_ok (c : Body) :
    (|(applyVelocityThreshold c).vx| < MIN_VELOCITY →
        (applyVelocityThreshold c).vx = 0) ∧
    ((applyVelocityThreshold c).onGround = true →
      |(applyVelocityThreshold c).vy| < MIN_VELOCITY →
        (applyVelocityThreshold c).vy = 0) := by
  unfold applyVelocityThreshold
  dsimp only
  by_cases h1 : |c.vx| < MIN_VELOCITY
  · rw [if_pos h1]
    by_cases h2 : |({ c with vx := (0 : ℝ) }).vy| < MIN_VELOCITY ∧
        ({ c with vx := (0 : ℝ) }).onGround
    · rw [if_pos h2]
      exact ⟨fun _ => rfl, fun _ _ => rfl⟩
    · rw [if_neg h2]
      exact ⟨fun _ => rfl, fun hg hv => absurd ⟨hv, by simpa using hg⟩ h2⟩
  · rw [if_neg h1]
    by_cases h2 : |c.vy| < MIN_VELOCITY ∧ c.onGround
    · rw [if_pos h2]
      exact ⟨fun hv => absurd (by simpa using hv) h1, fun _ _ => rfl⟩
    · rw [if_neg h2]
      exact ⟨fun hv => absurd hv h1, fun hg hv => absurd ⟨hv, by simpa using hg⟩ h2⟩

lemma stepBody_snap (world : World) (statics : List Body) (dt : ℝ) (body : Body) :
    (|(stepBody world statics dt body).vx| < MIN_VELOCITY →
        (stepBody world statics dt body).vx = 0) ∧
    ((stepBody world statics dt body).onGround = true →
      |(stepBody world statics dt body).vy| < MIN_VELOCITY →
        (stepBody world statics dt body).vy = 0) :=
  applyVelocityThreshold_ok _

/-- C8: after `step(world, dt)`, every body has vx exactly 0 whenever
|vx| is below `MIN_VELOCITY`, and vy exactly 0 whenever it is grounded
and |vy| is below the threshold.  The hypothesis is the factory
invariant that static bodies carry zero velocity (the `brick` factory
always creates them that way, and `step` never writes them). -/
theorem c8_velocity_threshold (w : World) (dt : ℝ)
    (hstat : ∀ b ∈ w.bodies, b.isStatic = true → b.vx = 0 ∧ b.vy = 0) :
    ∀ b ∈ (step w dt).bodies,
      (|b.vx| < MIN_VELOCITY → b.vx = 0) ∧
      (b.onGround = true → |b.vy| < MIN_VELOCITY → b.vy = 0) := by
  intro b hb
  simp only [step] at hb
  obtain ⟨b0, hb0, rfl⟩ := List.mem_map.mp hb
  by_cases hs : b0.isStatic = true
  · rw [if_pos hs]
    obtain ⟨hvx, hvy⟩ := hstat b0 hb0 hs
    exact ⟨fun _ => hvx, fun _ _ => hvy⟩
  · rw [if_neg hs]
    exact stepBody_snap w _ dt b0

/-- Witness for C8: the one-static-brick world `w8` satisfies the factory
invariant, so its bodies satisfy the post-step snap property. -/
theorem c8_velocity_threshold_witness :
    (∀ b ∈ w8.bodies, b.isStatic = true → b.vx = 0 ∧ b.vy = 0) ∧
    ∀ b ∈ (step w8 1).bodies,
      (|b.vx| < MIN_VELOCITY → b.vx = 0) ∧
      (b.onGround = true → |b.vy| < MIN_VELOCITY → b.vy = 0) := by
  have hv : ∀ b ∈ w8.bodies, b.isStatic = true → b.vx = 0 ∧ b.vy = 0 := by
    intro b hb _
    rw [show w8.bodies = [(brick (createWorld 800 600) 10 20 30 40
      ⟨none, none, none, none, none⟩).2] from rfl] at hb
    rw [List.mem_singleton.mp hb]
    exact ⟨rfl, rfl⟩
  exact ⟨hv, c8_velocity_threshold w8 1 hv⟩

lemma foldl_min_min (l : List ℝ) : ∀ x a : ℝ, l.foldl min (min x a) = min a (l.foldl min x) := by
  induction l with
  | nil => intro x a; exact min_comm x a
  | cons c t ih =>
    intro x a
    show t.foldl min (min (min x a) c) = min a (t.foldl min (min x c))
    rw [show min (min x a) c = min (min x c) a by
      rw [min_assoc, min_comm a c, min_assoc]]
    exact ih (min x c) a

lemma foldl_min_head_append (p q : ℝ) (ps qs : List ℝ) :
    (ps ++ q :: qs).foldl min p = min (ps.foldl min p) (qs.foldl min q) := by
  rw [List.foldl_append]
  show qs.foldl min (min (ps.foldl min p) q) = _
  rw [min_comm (ps.foldl min p) q]
  exact foldl_min_min qs q (ps.foldl min p)

lemma nonempty_min_append_comm (p q : ℝ) (ps qs : List ℝ) :
    (ps ++ q :: qs).foldl min p = (qs ++ p :: ps).foldl min q := by
  rw [foldl_min_head_append, foldl_min_head_append, min_comm]

lemma foldl_minAcc_fst (ov : Vec2 → ℝ) :
    ∀ (rest : List Vec2) (acc : ℝ × Vec2),
      (rest.foldl (fun acc ax' => if ov ax' < acc.1 then (ov ax', ax') else acc) acc).1
        = (rest.map ov).foldl min acc.1 := by
  intro rest
  induction rest with
  | nil => intro acc; rfl
  | cons c t ih =>
    intro acc
    show (t.foldl _ (if ov c < acc.1 then (ov c, c) else acc)).1
      = (t.map ov).foldl min (min acc.1 (ov c))
    rw [ih]
    congr 1
    by_cases h : ov c < acc.1
    · rw [if_pos h]
      exact (min_eq_right h.le).symm
    · rw [if_neg h]
      exact (min_eq_left (not_lt.mp h)).symm

lemma minOverlapAxis_fst (vsA vsB : List Vec2) (ax : Vec2) (rest : List Vec2) :
    (minOverlapAxis vsA vsB (ax :: rest)).1 =
      (rest.map (overlapOn vsA vsB)).foldl min (overlapOn vsA vsB ax) := by
  show (rest.foldl _ (overlapOn vsA vsB ax, ax)).1 = _
  exact foldl_minAcc_fst (overlapOn vsA vsB) rest _

lemma overlapOn_symm (vsA vsB : List Vec2) (ax : Vec2) :
    overlapOn vsB vsA ax = overlapOn vsA vsB ax :=
  min_comm _ _

lemma separatedOn_symm (vsA vsB : List Vec2) (ax : Vec2) :
    separatedOn vsB vsA ax ↔ separatedOn vsA vsB ax :=
  or_comm

lemma edgeAxes_length (vs : List Vec2) : (edgeAxes vs).length = vs.length := by
  simp [edgeAxes]

lemma detectPolygonPolygon_symm (a b : Body) :
    (detectPolygonPolygon a b).colliding = (detectPolygonPolygon b a).colliding ∧
    (detectPolygonPolygon a b).overlap = (detectPolygonPolygon b a).overlap := by
  unfold detectPolygonPolygon
  dsimp only
  by_cases h1 : (getVertices a).length = 0 ∨ (getVertices b).length = 0
  · rw [if_pos h1, if_pos (Or.symm h1)]
    exact ⟨rfl, rfl⟩
  · rw [if_neg h1, if_neg (fun h => h1 (Or.symm h))]
    have hsep : (∃ ax ∈ edgeAxes (getVertices a) ++ edgeAxes (getVertices b),
        separatedOn (getVertices a) (getVertices b) ax) ↔
        ∃ ax ∈ edgeAxes (getVertices b) ++ edgeAxes (getVertices a),
        separatedOn (getVertices b) (getVertices a) ax := by
      constructor
      · rintro ⟨ax, hm, hs⟩
        exact ⟨ax, List.mem_append.mpr (Or.symm (List.mem_append.mp hm)),
          (separatedOn_symm _ _ ax).mpr hs⟩
      · rintro ⟨ax, hm, hs⟩
        exact ⟨ax, List.mem_append.mpr (Or.symm (List.mem_append.mp hm)),
          (separatedOn_symm _ _ ax).mp hs⟩
    by_cases h2 : ∃ ax ∈ edgeAxes (getVertices a) ++ edgeAxes (getVertices b),
        separatedOn (getVertices a) (getVertices b) ax
    · rw [if_pos h2, if_pos (hsep.mp h2)]
      exact ⟨rfl, rfl⟩
    · rw [if_neg h2, if_neg (fun h => h2 (hsep.mpr h))]
      constructor
      · split_ifs <;> rfl
      · have hov : ∀ (d o : ℝ) (n : Vec2),
            ((if d < 0 then (⟨true, o, ⟨-n.x, -n.y⟩⟩ : CollisionResult)
              else ⟨true, o, n⟩).overlap) = o := by
          intro d o n; split_ifs <;> rfl
        rw [hov, hov]
        have hA : edgeAxes (getVertices a) ≠ [] := by
          intro hc
          refine h1 (Or.inl ?_)
          have := edgeAxes_length (getVertices a)
          rw [hc] at this
          simpa using this.symm
        have hB : edgeAxes (getVertices b) ≠ [] := by
          intro hc
          refine h1 (Or.inr ?_)
          have := edgeAxes_length (getVertices b)
          rw [hc] at this
          simpa using this.symm
        obtain ⟨a0, ta, hA'⟩ := List.exists_cons_of_ne_nil hA
        obtain ⟨b0, tb, hB'⟩ := List.exists_cons_of_ne_nil hB
        rw [hA', hB', List.cons_append, List.cons_append,
          minOverlapAxis_fst, minOverlapAxis_fst]
        rw [show overlapOn (getVertices b) (getVertices a) =
          overlapOn (getVertices a) (getVertices b) from
          funext (overlapOn_symm _ _)]
        rw [List.map_append, List.map_cons, List.map_append, List.map_cons]
        exact nonempty_min_append_comm _ _ _ _

lemma circleDist_comm (a b : Body) :
    Real.sqrt ((a.x + a.w / 2 - (b.x + b.w / 2)) * (a.x + a.w / 2 - (b.x + b.w / 2)) +
        (a.y + a.h / 2 - (b.y + b.h / 2)) * (a.y + a.h / 2 - (b.y + b.h / 2))) =
      Real.sqrt ((b.x + b.w / 2 - (a.x + a.w / 2)) * (b.x + b.w / 2 - (a.x + a.w / 2)) +
        (b.y + b.h / 2 - (a.y + a.h / 2)) * (b.y + b.h / 2 - (a.y + a.h / 2))) :=
  congrArg Real.sqrt (by ring)

lemma detectCircleCircle_symm (a b : Body) :
    (detectCircleCircle a b).colliding = (detectCircleCircle b a).colliding ∧
    (detectCircleCircle a b).overlap = (detectCircleCircle b a).overlap := by
  unfold detectCircleCircle
  dsimp only
  rw [circleDist_comm a b]
  rw [show min b.w b.h / 2 + min a.w a.h / 2 = min a.w a.h / 2 + min b.w b.h / 2 from
    add_comm _ _]
  simp only [apply_ite CollisionResult.colliding, apply_ite CollisionResult.overlap]
  exact ⟨trivial, trivial⟩

lemma detectCircleCircle_normal_opp (a b : Body)
    (hne : ¬(a.x + a.w / 2 = b.x + b.w / 2 ∧ a.y + a.h / 2 = b.y + b.h / 2)) :
    (detectCircleCircle b a).normal.x = -(detectCircleCircle a b).normal.x ∧
    (detectCircleCircle b a).normal.y = -(detectCircleCircle a b).normal.y := by
  have h1 : b.x + b.w / 2 - (a.x + a.w / 2) ≠ 0 ∨
      b.y + b.h / 2 - (a.y + a.h / 2) ≠ 0 := by
    by_contra hc
    push_neg at hc
    exact hne ⟨by linarith [hc.1], by linarith [hc.2]⟩
  have hsum : 0 < (b.x + b.w / 2 - (a.x + a.w / 2)) * (b.x + b.w / 2 - (a.x + a.w / 2)) +
      (b.y + b.h / 2 - (a.y + a.h / 2)) * (b.y + b.h / 2 - (a.y + a.h / 2)) := by
    rcases h1 with h | h
    · nlinarith [mul_self_pos.mpr h,
        mul_self_nonneg (b.y + b.h / 2 - (a.y + a.h / 2))]
    · nlinarith [mul_self_pos.mpr h,
        mul_self_nonneg (b.x + b.w / 2 - (a.x + a.w / 2))]
  have hpos : 0 < Real.sqrt ((b.x + b.w / 2 - (a.x + a.w / 2)) *
      (b.x + b.w / 2 - (a.x + a.w / 2)) +
      (b.y + b.h / 2 - (a.y + a.h / 2)) * (b.y + b.h / 2 - (a.y + a.h / 2))) :=
    Real.sqrt_pos.mpr hsum
  unfold detectCircleCircle
  dsimp only
  rw [circleDist_comm a b]
  rw [show min b.w b.h / 2 + min a.w a.h / 2 = min a.w a.h / 2 + min b.w b.h / 2 from
    add_comm _ _]
  rw [if_pos hpos]
  split_ifs <;> refine ⟨?_, ?_⟩ <;> dsimp only <;> ring

/-- C5 amended: `detectCollision` is symmetric in `colliding` for every
pair of bodies, and the overlap values agree whenever a collision is
reported.  The normals are exactly opposite for circle-polygon pairs and
for circle-circle pairs with distinct centers; in the degenerate
circle-circle case with coincident centers both calls return the fixed
default normal (1, 0) (see the counterexample), and for polygon-polygon
pairs the minimal-axis tie-breaking and the center sign-correction
degenerate on ties (the counterexample's coincident rects return the
same normal (0, 1) in both orders), so opposition is not asserted
there. -/
theorem c5_symmetry_amended (a b : Body) :
    (detectCollision a b).colliding = (detectCollision b a).colliding ∧
    ((detectCollision a b).colliding = true →
      (detectCollision a b).overlap = (detectCollision b a).overlap) ∧
    ((detectCollision a b).colliding = true →
      ((a.shape = circleTag ∧ b.shape ≠ circleTag) ∨
       (a.shape ≠ circleTag ∧ b.shape = circleTag) ∨
       (a.shape = circleTag ∧ b.shape = circleTag ∧
        ¬(a.x + a.w / 2 = b.x + b.w / 2 ∧ a.y + a.h / 2 = b.y + b.h / 2)) →
      (detectCollision b a).normal.x = -(detectCollision a b).normal.x ∧
      (detectCollision b a).normal.y = -(detectCollision a b).normal.y)) := by
  by_cases hA : a.shape = circleTag <;> by_cases hB : b.shape = circleTag
  · have e1 : detectCollision a b = detectCircleCircle a b := by
      unfold detectCollision
      rw [if_pos ⟨hA, hB⟩]
    have e2 : detectCollision b a = detectCircleCircle b a := by
      unfold detectCollision
      rw [if_pos ⟨hB, hA⟩]
    rw [e1, e2]
    refine ⟨(detectCircleCircle_symm a b).1,
      fun _ => (detectCircleCircle_symm a b).2, fun _ hcond => ?_⟩
    rcases hcond with ⟨_, h⟩ | ⟨h, _⟩ | ⟨_, _, hne⟩
    · exact absurd hB h
    · exact absurd hA h
    · exact detectCircleCircle_normal_opp a b hne
  · have e1 : detectCollision a b = detectCirclePolygon a b := by
      unfold detectCollision
      rw [if_neg (fun h => hB h.2), if_pos ⟨hA, hB⟩]
    have e2 : detectCollision b a =
        (if (detectCirclePolygon a b).colliding then
          { detectCirclePolygon a b with
              normal := ⟨-(detectCirclePolygon a b).normal.x,
                -(detectCirclePolygon a b).normal.y⟩ }
         else detectCirclePolygon a b) := by
      unfold detectCollision
      rw [if_neg (fun h => hB h.1), if_neg (fun h => hB h.1), if_pos ⟨hB, hA⟩]
    rw [e1, e2]
    cases hcol : (detectCirclePolygon a b).colliding
    · simp [hcol]
    · simp [hcol]
  · have e1 : detectCollision a b =
        (if (detectCirclePolygon b a).colliding then
          { detectCirclePolygon b a with
              normal := ⟨-(detectCirclePolygon b a).normal.x,
                -(detectCirclePolygon b a).normal.y⟩ }
         else detectCirclePolygon b a) := by
      unfold detectCollision
      rw [if_neg (fun h => hA h.1), if_neg (fun h => hA h.1), if_pos ⟨hA, hB⟩]
    have e2 : detectCollision b a = detectCirclePolygon b a := by
      unfold detectCollision
      rw [if_neg (fun h => hA h.2), if_pos ⟨hB, hA⟩]
    rw [e1, e2]
    cases hcol : (detectCirclePolygon b a).colliding
    · simp [hcol]
    · simp [hcol]
  · have e1 : detectCollision a b = detectPolygonPolygon a b := by
      unfold detectCollision
      rw [if_neg (fun h => hA h.1), if_neg (fun h => hA h.1),
        if_neg (fun h => hB h.2)]
    have e2 : detectCollision b a = detectPolygonPolygon b a := by
      unfold detectCollision
      rw [if_neg (fun h => hB h.1), if_neg (fun h => hB h.1),
        if_neg (fun h => hA h.2)]
    rw [e1, e2]
    refine ⟨(detectPolygonPolygon_symm a b).1,
      fun _ => (detectPolygonPolygon_symm a b).2, fun _ hcond => ?_⟩
    rcases hcond with ⟨h, _⟩ | ⟨_, h⟩ | ⟨h, _, _⟩
    · exact absurd h hA
    · exact absurd h hB
    · exact absurd h hA

lemma detect_circA_circE : detectCollision circA circE = ⟨true, 1.5, ⟨1, 0⟩⟩ := by
  unfold detectCollision
  rw [if_pos ⟨rfl, rfl⟩]
  unfold detectCircleCircle
  have h1 : Real.sqrt ((circE.x + circE.w / 2 - (circA.x + circA.w / 2)) *
      (circE.x + circE.w / 2 - (circA.x + circA.w / 2)) +
      (circE.y + circE.h / 2 - (circA.y + circA.h / 2)) *
      (circE.y + circE.h / 2 - (circA.y + circA.h / 2))) = 0 := by
    rw [show circE.x + circE.w / 2 - (circA.x + circA.w / 2) = 0 by
      norm_num [circA, circE, circleBody]]
    rw [show circE.y + circE.h / 2 - (circA.y + circA.h / 2) = 0 by
      norm_num [circA, circE, circleBody]]
    norm_num
  simp only [h1]
  norm_num [circA, circE, circleBody]

lemma detect_circE_circA : detectCollision circE circA = ⟨true, 1.5, ⟨1, 0⟩⟩ := by
  unfold detectCollision
  rw [if_pos ⟨rfl, rfl⟩]
  unfold detectCircleCircle
  have h1 : Real.sqrt ((circA.x + circA.w / 2 - (circE.x + circE.w / 2)) *
      (circA.x + circA.w / 2 - (circE.x + circE.w / 2)) +
      (circA.y + circA.h / 2 - (circE.y + circE.h / 2)) *
      (circA.y + circA.h / 2 - (circE.y + circE.h / 2))) = 0 := by
    rw [show circA.x + circA.w / 2 - (circE.x + circE.w / 2) = 0 by
      norm_num [circA, circE, circleBody]]
    rw [show circA.y + circA.h / 2 - (circE.y + circE.h / 2) = 0 by
      norm_num [circA, circE, circleBody]]
    norm_num
  simp only [h1]
  norm_num [circA, circE, circleBody]

lemma verts_rectA : getVertices rectA = [⟨0, 0⟩, ⟨2, 0⟩, ⟨2, 2⟩, ⟨0, 2⟩] := by
  unfold getVertices
  rw [if_pos (show rectA.shape = rectTag from rfl)]
  unfold transformCorner
  norm_num [rectA, Real.cos_zero, Real.sin_zero]

lemma verts_rectB : getVertices rectB = [⟨0, 0⟩, ⟨2, 0⟩, ⟨2, 2⟩, ⟨0, 2⟩] := by
  unfold getVertices
  rw [if_pos (show rectB.shape = rectTag from rfl)]
  unfold transformCorner
  norm_num [rectB, Real.cos_zero, Real.sin_zero]

lemma axes_unitSquare : edgeAxes [⟨0, 0⟩, ⟨2, 0⟩, ⟨2, 2⟩, ⟨0, 2⟩] =
    [⟨0, 1⟩, ⟨-1, 0⟩, ⟨0, -1⟩, ⟨1, 0⟩] := by
  have h4 : Real.sqrt 4 = 2 := by
    rw [show (4 : ℝ) = 2 ^ 2 by norm_num]
    exact Real.sqrt_sq (by norm_num)
  unfold edgeAxes
  norm_num [List.rotate]
  norm_num [h4]

lemma no_sep_unitSquare :
    ¬∃ ax ∈ ([⟨0, 1⟩, ⟨-1, 0⟩, ⟨0, -1⟩, ⟨1, 0⟩] ++
        [⟨0, 1⟩, ⟨-1, 0⟩, ⟨0, -1⟩, ⟨1, 0⟩] : List Vec2),
      separatedOn [⟨0, 0⟩, ⟨2, 0⟩, ⟨2, 2⟩, ⟨0, 2⟩]
        [⟨0, 0⟩, ⟨2, 0⟩, ⟨2, 2⟩, ⟨0, 2⟩] ax := by
  rintro ⟨ax, hm, hs⟩
  simp only [List.mem_append, or_self, List.mem_cons, List.not_mem_nil,
    or_false] at hm
  unfold separatedOn projectPolygon at hs
  rcases hm with h | h | h | h <;> subst h <;>
    norm_num [min_def, max_def] at hs

lemma detect_rectA_rectB : detectCollision rectA rectB = ⟨true, 2, ⟨0, 1⟩⟩ := by
  have e1 : detectCollision rectA rectB = detectPolygonPolygon rectA rectB := by
    unfold detectCollision
    rw [if_neg (fun h => absurd h.1 (by decide)),
      if_neg (fun h => absurd h.1 (by decide)),
      if_neg (fun h => absurd h.2 (by decide))]
  rw [e1]
  unfold detectPolygonPolygon
  dsimp only
  rw [verts_rectA, verts_rectB, axes_unitSquare]
  rw [if_neg (by norm_num), if_neg no_sep_unitSquare]
  unfold minOverlapAxis overlapOn projectPolygon
  norm_num [rectA, rectB, min_def, max_def]

lemma detect_rectB_rectA : detectCollision rectB rectA = ⟨true, 2, ⟨0, 1⟩⟩ := by
  have e1 : detectCollision rectB rectA = detectPolygonPolygon rectB rectA := by
    unfold detectCollision
    rw [if_neg (fun h => absurd h.1 (by decide)),
      if_neg (fun h => absurd h.1 (by decide)),
      if_neg (fun h => absurd h.2 (by decide))]
  rw [e1]
  unfold detectPolygonPolygon
  dsimp only
  rw [verts_rectA, verts_rectB, axes_unitSquare]
  rw [if_neg (by norm_num), if_neg no_sep_unitSquare]
  unfold minOverlapAxis overlapOn projectPolygon
  norm_num [rectA, rectB, min_def, max_def]

/-- C5 counterexample: the claim's normal-opposition clause fails in both
degenerate families the amendment excludes.  The circles `circA` and
`circE` share the center (1, 1), so both `detectCollision(a, b)` and
`detectCollision(b, a)` report a collision with the fixed default normal
(1, 0) - identical, not opposite.  And the coincident 2-by-2 rects
`rectA` and `rectB` collide in both orders with the same minimal-axis
normal (0, 1): the SAT minimum is tied on every axis, the first axis of
the scanned list wins in each order, and the center sign-correction dot
product is 0, so no flip occurs - again identical, not opposite. -/
theorem c5_symmetry_counterexample :
    (detectCollision circA circE).colliding = true ∧
    (detectCollision circE circA).colliding = true ∧
    ¬((detectCollision circE circA).normal.x =
        -(detectCollision circA circE).normal.x ∧
      (detectCollision circE circA).normal.y =
        -(detectCollision circA circE).normal.y) ∧
    (detectCollision rectA rectB).colliding = true ∧
    (detectCollision rectB rectA).colliding = true ∧
    ¬((detectCollision rectB rectA).normal.x =
        -(detectCollision rectA rectB).normal.x ∧
      (detectCollision rectB rectA).normal.y =
        -(detectCollision rectA rectB).normal.y) := by
  rw [detect_circA_circE, detect_circE_circA, detect_rectA_rectB,
    detect_rectB_rectA]
  norm_num

/-- Witness for C5 amended: the overlapping distinct-center circles
`circA` and `circB` collide, their overlaps agree, and their normals are
exactly opposite. -/
theorem c5_symmetry_amended_witness :
    (detectCollision circA circB).colliding = true ∧
    (detectCollision circA circB).overlap = (detectCollision circB circA).overlap ∧
    (detectCollision circB circA).normal.x =
      -(detectCollision circA circB).normal.x ∧
    (detectCollision circB circA).normal.y =
      -(detectCollision circA circB).normal.y := by
  have h := c5_symmetry_amended circA circB
  have hc : (detectCollision circA circB).colliding = true := by
    rw [detect_circA_circB]
  have hcond : (circA.shape = circleTag ∧ circB.shape ≠ circleTag) ∨
      (circA.shape ≠ circleTag ∧ circB.shape = circleTag) ∨
      (circA.shape = circleTag ∧ circB.shape = circleTag ∧
        ¬(circA.x + circA.w / 2 = circB.x + circB.w / 2 ∧
          circA.y + circA.h / 2 = circB.y + circB.h / 2)) :=
    Or.inr (Or.inr ⟨rfl, rfl, by norm_num [circA, circB, circleBody]⟩)
  exact ⟨hc, h.2.1 hc, (h.2.2 hc hcond).1, (h.2.2 hc hcond).2⟩
